import Mathlib

/-!
# ElevenLabs proxy (`server.js`): a shallow embedding

The development models the three parts of `server.js` that carry behaviour:

* the janitor (the `setInterval` callback, lines 28-41),
* the synthesis handler `POST /v1/text-to-speech/:voice_id` (lines 44-117),
* the name and URL of the stored audio file (lines 81-88).

JavaScript values are modelled by `JsVal`, strings by Lean strings (sequences of
Unicode scalar values; `jsLength` counts UTF-16 code units as `String.prototype.length`
does), timestamps by integers (milliseconds), the directory `./audio_files` by a
duplicate-free association list from file names to files. File-system calls may throw:
which calls do is given by `FsFaults`, for the janitor (`stat`, `unlink`) and for the
handler (`write`) alike.
-/

namespace ElevenLabsProxy

/-! ## JavaScript values -/

/-- A JavaScript value as it reaches the handler: `undefined` for an absent property, or
a value produced by the JSON body parser or the query-string parser. Numbers carry the
exact rational value of the parsed number. -/
inductive JsVal where
  | undefined : JsVal
  | null : JsVal
  | bool (b : Bool) : JsVal
  | num (q : Rat) : JsVal
  | str (s : String) : JsVal
  | arr (items : List JsVal) : JsVal
  | obj (fields : List (String × JsVal)) : JsVal

/-- JavaScript `ToBoolean`: `undefined`, `null`, `false`, `0` and `''` are falsy,
everything else (every object and array included) is truthy. -/
def truthy : JsVal → Bool
  | .undefined => false
  | .null => false
  | .bool b => b
  | .num q => decide (q ≠ 0)
  | .str s => decide (s ≠ "")
  | .arr _ => true
  | .obj _ => true

/-- The JavaScript operator `a || b`. -/
def jsOr (a b : JsVal) : JsVal :=
  if truthy a then a else b

/-- Property read `o.k` (also what the destructuring `const { k } = o` binds): the value
stored under `k` when `o` is an object that has it, `undefined` otherwise. -/
def getProp (o : JsVal) (k : String) : JsVal :=
  match o with
  | .obj fields => (fields.lookup k).getD .undefined
  | _ => .undefined

/-! ## JavaScript strings -/

/-- The code points `String.prototype.trim` strips: ECMAScript `WhiteSpace`
(TAB, VT, FF, ZWNBSP and the Unicode category Zs) and `LineTerminator`
(LF, CR, LS, PS). -/
def isJsWhiteSpace (c : Char) : Bool :=
  let n := c.toNat
  n == 0x09 || n == 0x0A || n == 0x0B || n == 0x0C || n == 0x0D || n == 0x20 ||
  n == 0xA0 || n == 0x1680 || (0x2000 ≤ n && n ≤ 0x200A) || n == 0x2028 ||
  n == 0x2029 || n == 0x202F || n == 0x205F || n == 0x3000 || n == 0xFEFF

/-- The method `String.prototype.trim`: white space is removed at both ends. -/
def jsTrim (s : String) : String :=
  String.mk (((s.data.dropWhile isJsWhiteSpace).reverse.dropWhile isJsWhiteSpace).reverse)

/-- The property `String.prototype.length`: the number of UTF-16 code units, two for a
code point outside the Basic Multilingual Plane. -/
def jsLength (s : String) : Nat :=
  (s.data.map (fun c => if c.toNat < 0x10000 then 1 else 2)).sum

/-! ## File names -/

/-- A byte of a `Buffer`. -/
abbrev Byte := Fin 256

/-- The sixteen digits used by `Buffer.prototype.toString('hex')`, indexed by the value
of a nibble. -/
def hexDigit (d : Nat) : Char :=
  "0123456789abcdef".data.getD d '0'

/-- The two hexadecimal digits of one byte, high nibble first. -/
def byteHex (b : Byte) : List Char :=
  [hexDigit (b.val / 16), hexDigit (b.val % 16)]

/-- The call `buf.toString('hex')`. -/
def toHex (buf : List Byte) : String :=
  String.mk (buf.flatMap byteHex)

/-- Line 81: the file name built from the buffer returned by `crypto.randomBytes(16)`. -/
def filename (token : List Byte) : String :=
  toHex token ++ ".mp3"

/-- Line 88: the public URL of a stored file. -/
def audioUrl (baseUrl : String) (file : String) : String :=
  baseUrl ++ "/audio/" ++ file

/-- Whether a character is a lower-case hexadecimal digit. -/
def isHexDigit (c : Char) : Bool :=
  ('0' ≤ c && c ≤ '9') || ('a' ≤ c && c ≤ 'f')

/-! ## Errors -/

/-- The part of an axios error response that the handler reads (`error.response.status`). -/
structure ErrorResponse where
  status : Nat

/-- A thrown JavaScript error: `error.response` is present only when the upstream
answered with a status outside 2xx, `error.message` is always there. -/
structure JsError where
  response : Option ErrorResponse
  message : String

/-! ## The file store `./audio_files` -/

/-- A file in the store: its bytes and its last-modified time in milliseconds. -/
structure AudioFile where
  content : List Byte
  mtimeMs : Int

/-- The directory `./audio_files`: entries in the order `readdirSync` lists them, no name
twice. -/
structure FileStore where
  entries : List (String × AudioFile)
  nodup : (entries.map Prod.fst).Nodup

/-- File-system calls that throw: `stat file = some e` means `fs.statSync` on that entry
throws `e`, and likewise `unlink` for `fs.unlinkSync` and `write` for
`fs.writeFileSync`. -/
structure FsFaults where
  stat : String → Option JsError
  unlink : String → Option JsError
  write : String → Option JsError

/-- A file system on which no call fails. -/
def noFaults : FsFaults :=
  { stat := fun _ => none, unlink := fun _ => none, write := fun _ => none }

/-- The empty directory created at start-up (lines 23-25). -/
def FileStore.empty : FileStore :=
  { entries := [], nodup := List.nodup_nil }

/-- The file stored under a name, if any. -/
def FileStore.lookup (st : FileStore) (file : String) : Option AudioFile :=
  st.entries.lookup file

/-- The call `fs.readdirSync('./audio_files')`. -/
def readdirSync (st : FileStore) : List String :=
  st.entries.map Prod.fst

/-- The error of a file-system call on a name that is not in the directory. -/
def enoent (call file : String) : JsError :=
  { response := none,
    message := "ENOENT: no such file or directory, " ++ call ++ " 'audio_files/" ++ file ++ "'" }

/-- The call `fs.statSync(filePath)`, of which the janitor reads `mtimeMs`. -/
def statSync (faults : FsFaults) (st : FileStore) (file : String) : Except JsError AudioFile :=
  match faults.stat file with
  | some e => .error e
  | none =>
    match st.lookup file with
    | some f => .ok f
    | none => .error (enoent "stat" file)

/-- The directory after the entry of that name is removed. -/
def FileStore.remove (st : FileStore) (file : String) : FileStore :=
  { entries := st.entries.filter (fun e => decide (e.1 ≠ file)),
    nodup := st.nodup.sublist ((List.filter_sublist st.entries).map Prod.fst) }

/-- The call `fs.unlinkSync(filePath)`. -/
def unlinkSync (faults : FsFaults) (st : FileStore) (file : String) : Except JsError FileStore :=
  match faults.unlink file with
  | some e => .error e
  | none =>
    match st.lookup file with
    | some _ => .ok (st.remove file)
    | none => .error (enoent "unlink" file)

/-- The entries after a file is written: an entry of that name is replaced where it
stands, a new name is listed last. -/
def writeEntries (file : String) (g : AudioFile) :
    List (String × AudioFile) → List (String × AudioFile)
  | [] => [(file, g)]
  | (k, v) :: rest => if k = file then (file, g) :: rest else (k, v) :: writeEntries file g rest

/-- The directory after the file of that name is created or replaced. -/
def FileStore.write (st : FileStore) (file : String) (g : AudioFile) : FileStore :=
  { entries := writeEntries file g st.entries,
    nodup := by
      have aux : ∀ (l : List (String × AudioFile)) (x : String),
          x ∈ (writeEntries file g l).map Prod.fst → x = file ∨ x ∈ l.map Prod.fst := by
        intro l
        induction l with
        | nil =>
          intro x hx
          simp [writeEntries] at hx
          exact Or.inl hx
        | cons a t ih =>
          obtain ⟨k, v⟩ := a
          intro x hx
          by_cases hk : k = file
          · simp only [writeEntries, if_pos hk, List.map_cons, List.mem_cons] at hx
            rcases hx with hx | hx
            · exact Or.inl hx
            · exact Or.inr (List.mem_cons_of_mem _ hx)
          · simp only [writeEntries, if_neg hk, List.map_cons, List.mem_cons] at hx
            rcases hx with hx | hx
            · exact Or.inr (hx ▸ List.mem_cons_self _ _)
            · rcases ih x hx with h | h
              · exact Or.inl h
              · exact Or.inr (List.mem_cons_of_mem _ h)
      have main : ∀ l : List (String × AudioFile), (l.map Prod.fst).Nodup →
          ((writeEntries file g l).map Prod.fst).Nodup := by
        intro l
        induction l with
        | nil => intro _; simp [writeEntries]
        | cons a t ih =>
          obtain ⟨k, v⟩ := a
          intro h
          rw [List.map_cons, List.nodup_cons] at h
          by_cases hk : k = file
          · simp only [writeEntries, if_pos hk, List.map_cons, List.nodup_cons]
            exact ⟨hk ▸ h.1, h.2⟩
          · simp only [writeEntries, if_neg hk, List.map_cons, List.nodup_cons]
            refine ⟨fun hmem => ?_, ih h.2⟩
            rcases aux t k hmem with h1 | h1
            · exact hk h1
            · exact h.1 h1
      exact main st.entries st.nodup }

/-- The call `fs.writeFileSync(filepath, data)` at time `now`: either it throws, and the
directory is as before, or the file of that name is created or replaced and its
last-modified time is the time of the write. -/
def writeFileSync (faults : FsFaults) (st : FileStore) (file : String) (data : List Byte)
    (now : Int) : Except JsError FileStore :=
  match faults.write file with
  | some e => .error e
  | none => .ok (st.write file { content := data, mtimeMs := now })

/-! ## The janitor (lines 28-41) -/

/-- The body of the `files.forEach` callback (lines 32-39) for one directory entry. -/
def sweepFile (faults : FsFaults) (now : Int) (st : FileStore) (file : String) :
    Except JsError FileStore :=
  match statSync faults st file with
  | .error e => .error e
  | .ok stats =>
    let age := now - stats.mtimeMs
    if age > 3600000 then unlinkSync faults st file else .ok st

/-- The loop `files.forEach(...)`: entries are handled in order; an exception thrown by
the callback ends the loop and leaves the store as it is at that point. The result is the
store after the loop and the exception that escaped, if any. -/
def forEachFile (faults : FsFaults) (now : Int) : List String → FileStore → FileStore × Option JsError
  | [], st => (st, none)
  | file :: rest, st =>
    match sweepFile faults now st file with
    | .error e => (st, some e)
    | .ok st' => forEachFile faults now rest st'

/-- One run of the `setInterval` callback at time `now` (the value of `Date.now()`). -/
def janitor (faults : FsFaults) (now : Int) (st : FileStore) : FileStore × Option JsError :=
  forEachFile faults now (readdirSync st) st

/-- The time of the `k`-th run of the callback (`k = 1, 2, ...`) when `setInterval` was
called at time `start`. -/
def sweepTime (start : Int) (k : Nat) : Int :=
  start + k * 3600000

/-! ## Configuration (lines 15-16) -/

/-- The two environment variables the handler depends on; `none` when unset. -/
structure Env where
  ELEVENLABS_API_KEY : Option String
  BASE_URL : Option String

/-- The expression `process.env.X || fallback`: an unset or empty variable gives the
fallback. -/
def envOr (v : Option String) (fallback : String) : String :=
  match v with
  | some s => if s = "" then fallback else s
  | none => fallback

/-- Line 15. -/
def ELEVENLABS_API_KEY (env : Env) : String :=
  envOr env.ELEVENLABS_API_KEY "tu_api_key_aqui"

/-- Line 16; the template literal of the source ends in a tab character. -/
def BASE_URL (env : Env) : String :=
  envOr env.BASE_URL "https://elevenlabs-proxy-production-3ede.up.railway.app\t"

/-! ## The synthesis handler (lines 44-117) -/

/-- What the handler reads of the incoming request: `req.params.voice_id`, the own
properties of the object `req.body` left by `express.json()`, and
`req.query.output_format` (`undefined` when the query has none). -/
structure Request where
  voice_id : String
  body : List (String × JsVal)
  output_format : JsVal

/-- The arguments of the `axios.post` call (lines 58-78). -/
structure UpstreamRequest where
  url : String
  data : JsVal
  headers : List (String × String)
  params : List (String × JsVal)
  responseType : String

/-- The upstream service as the handler sees it through `await axios.post(...)`: either
the bytes of `response.data` or the error that is thrown. -/
abbrev Upstream := UpstreamRequest → Except JsError (List Byte)

/-- An HTTP response: the status set by `res.status(...)` (200 when it is not called) and
the value passed to `res.json(...)`. -/
structure Response where
  status : Nat
  body : JsVal

/-- The effect of one handler run: the response, the file store afterwards and the
upstream calls made, in order. -/
structure Outcome where
  response : Response
  store : FileStore
  calls : List UpstreamRequest

/-- The value of `error.response?.status`. -/
def errorStatus (error : JsError) : Option Nat :=
  error.response.map (fun r => r.status)

/-- The `catch` block of the handler (lines 99-116). -/
def catchBlock (error : JsError) : Response :=
  if errorStatus error = some 401 then
    { status := 401, body := .obj [("error", .str "API key inválida")] }
  else if errorStatus error = some 404 then
    { status := 404, body := .obj [("error", .str "Voice ID no encontrado")] }
  else if errorStatus error = some 429 then
    { status := 429, body := .obj [("error", .str "Límite de cuota excedido")] }
  else
    { status := 500,
      body := .obj [("error", .str "Error al generar audio"), ("details", .str error.message)] }

/-- The response of lines 51-53. -/
def textRequired : Response :=
  { status := 400, body := .obj [("error", .str "El texto es requerido")] }

/-- The default of `voice_settings` (lines 63-68). -/
def defaultVoiceSettings : JsVal :=
  .obj [("stability", .num (1 / 2)), ("similarity_boost", .num (3 / 4)),
        ("style", .num 0), ("use_speaker_boost", .bool true)]

/-- The request sent upstream (lines 58-78). -/
def upstreamRequest (env : Env) (voice_id : String) (text model_id voice_settings : JsVal)
    (output_format : JsVal) : UpstreamRequest :=
  { url := "https://api.elevenlabs.io/v1/text-to-speech/" ++ voice_id,
    data := .obj [("text", text),
                  ("model_id", jsOr model_id (.str "eleven_multilingual_v2")),
                  ("voice_settings", jsOr voice_settings defaultVoiceSettings)],
    headers := [("xi-api-key", ELEVENLABS_API_KEY env), ("Content-Type", "application/json")],
    params := [("output_format", output_format)],
    responseType := "arraybuffer" }

/-- The body of the success response (lines 90-97). -/
def successBody (audio_url voice_id : String) (text : String) (model_id : JsVal) : JsVal :=
  .obj [("success", .bool true),
        ("audio_url", .str audio_url),
        ("voice_id", .str voice_id),
        ("text_length", .num (jsLength text)),
        ("model", jsOr model_id (.str "eleven_multilingual_v2")),
        ("message", .str "Audio generado exitosamente. El archivo estará disponible por 1 hora.")]

/-- The error thrown by `text.trim()` when `text` is truthy and not a string. -/
def trimNotAFunction : JsError :=
  { response := none, message := "text.trim is not a function" }

/-- The handler of `POST /v1/text-to-speech/:voice_id`, run at time `now` on the file
store `st`, with `token` the buffer returned by `crypto.randomBytes(16)`. Whatever is
thrown inside the `try` block (by `text.trim`, by the upstream call, by the write of the
file) is answered by the `catch` block. -/
def textToSpeech (env : Env) (upstream : Upstream) (faults : FsFaults) (token : List Byte)
    (now : Int) (st : FileStore) (req : Request) : Outcome :=
  let voice_id := req.voice_id
  let text := getProp (.obj req.body) "text"
  let model_id := getProp (.obj req.body) "model_id"
  let voice_settings := getProp (.obj req.body) "voice_settings"
  let output_format := jsOr req.output_format (.str "mp3_44100_128")
  if !truthy text then
    { response := textRequired, store := st, calls := [] }
  else
    match text with
    | .str s =>
      if jsLength (jsTrim s) = 0 then
        { response := textRequired, store := st, calls := [] }
      else
        let call := upstreamRequest env voice_id text model_id voice_settings output_format
        match upstream call with
        | .error e => { response := catchBlock e, store := st, calls := [call] }
        | .ok data =>
          let file := filename token
          match writeFileSync faults st file data now with
          | .error e => { response := catchBlock e, store := st, calls := [call] }
          | .ok st' =>
            let url := audioUrl (BASE_URL env) file
            { response := { status := 200, body := successBody url voice_id s model_id },
              store := st', calls := [call] }
    | _ => { response := catchBlock trimNotAFunction, store := st, calls := [] }

/-- The `axios.post` call the handler makes for a request that passes validation. -/
def sentCall (env : Env) (req : Request) : UpstreamRequest :=
  upstreamRequest env req.voice_id (getProp (.obj req.body) "text")
    (getProp (.obj req.body) "model_id") (getProp (.obj req.body) "voice_settings")
    (jsOr req.output_format (.str "mp3_44100_128"))

/-- A text that is not blank: a string with at least one character that `trim` keeps. -/
def nonBlank (s : String) : Prop :=
  ∃ c ∈ s.data, isJsWhiteSpace c = false

/-- A text that is blank: every character (if any) is white space. -/
def blank (s : String) : Prop :=
  ∀ c ∈ s.data, isJsWhiteSpace c = true

/-! ## The static file server (line 20) -/

/-- Modelled from the spec: `express.static('audio_files')` mounted at `/audio` is a
library that is not part of the source; section 4.5 of the specification has it map the
trailing path segment of a GET under `/audio/` to a file of the store and answer with its
bytes if found (`some`), with not-found otherwise (`none`). -/
def staticGet (st : FileStore) (path : String) : Option (List Byte) :=
  if "/audio/".data.isPrefixOf path.data then
    (st.lookup (String.mk (path.data.drop 7))).map (fun f => f.content)
  else none

/-- The store that keeps exactly the entries whose age at time `now` is at most
3600000 ms, untouched and in their order. -/
def FileStore.keepFresh (now : Int) (st : FileStore) : FileStore :=
  { entries := st.entries.filter (fun e => decide (now - e.2.mtimeMs ≤ 3600000)),
    nodup := st.nodup.sublist ((List.filter_sublist st.entries).map Prod.fst) }

/-! ## Sample inputs -/

/-- An environment with neither variable set. -/
def sampleEnv : Env :=
  { ELEVENLABS_API_KEY := none, BASE_URL := none }

/-- An upstream that answers every call with the two bytes `00 01`. -/
def sampleUpstream : Upstream :=
  fun _ => .ok [0, 1]

/-- The error axios throws for an upstream answer with status 404. -/
def sampleError404 : JsError :=
  { response := some { status := 404 }, message := "Request failed with status code 404" }

/-- An upstream that answers every call with status 404. -/
def sampleUpstream404 : Upstream :=
  fun _ => .error sampleError404

/-- A sixteen-byte token. -/
def sampleToken : List Byte :=
  [0, 1, 2, 3, 4, 5, 6, 7, 8, 9, 10, 11, 12, 13, 14, 255]

/-- A second sixteen-byte token. -/
def sampleToken2 : List Byte :=
  [16, 1, 2, 3, 4, 5, 6, 7, 8, 9, 10, 11, 12, 13, 14, 255]

/-- The request `POST /v1/text-to-speech/abc123` with body `{"text":"Hello world"}`. -/
def sampleRequest : Request :=
  { voice_id := "abc123", body := [("text", .str "Hello world")], output_format := .undefined }

/-- A request whose text is white space only. -/
def sampleBlankRequest : Request :=
  { voice_id := "abc123", body := [("text", .str " \t\n")], output_format := .undefined }

/-- The request `POST /v1/text-to-speech/abc123` with body
`{"text":"Hello world","model_id":""}`. -/
def sampleEmptyModelRequest : Request :=
  { voice_id := "abc123", body := [("text", .str "Hello world"), ("model_id", .str "")],
    output_format := .undefined }

/-- A store with an old and a recent file, seen from time `10000000`. -/
def sampleStore : FileStore :=
  { entries := [("a.mp3", { content := [1], mtimeMs := 0 }),
                ("b.mp3", { content := [2], mtimeMs := 9000000 })],
    nodup := by decide }

/-- A store with two files last modified at time `0`. -/
def sampleOldStore : FileStore :=
  { entries := [("a.mp3", { content := [1], mtimeMs := 0 }),
                ("b.mp3", { content := [2], mtimeMs := 0 })],
    nodup := by decide }

/-- The error of a `stat` call that is refused. -/
def sampleStatError : JsError :=
  { response := none, message := "EACCES: permission denied, stat 'audio_files/a.mp3'" }

/-- A file system on which `fs.statSync` fails for `a.mp3` and nothing else fails. -/
def sampleStatFault : FsFaults :=
  { stat := fun file => if file = "a.mp3" then some sampleStatError else none,
    unlink := fun _ => none,
    write := fun _ => none }

/-- The request `POST /v1/text-to-speech/abc123` with body
`{"text":"Hello world","voice_settings":{"stability":0.9}}`. -/
def samplePartialSettingsRequest : Request :=
  { voice_id := "abc123",
    body := [("text", .str "Hello world"), ("voice_settings", .obj [("stability", .num (9 / 10))])],
    output_format := .undefined }

/-- The error of a write on a full disk. -/
def sampleWriteError : JsError :=
  { response := none, message := "ENOSPC: no space left on device, write" }

/-- A file system on which every `fs.writeFileSync` fails and nothing else fails. -/
def sampleWriteFault : FsFaults :=
  { stat := fun _ => none, unlink := fun _ => none, write := fun _ => some sampleWriteError }

/-- The error of an `unlink` call that is refused. -/
def sampleUnlinkError : JsError :=
  { response := none, message := "EPERM: operation not permitted, unlink 'audio_files/a.mp3'" }

/-- A file system on which `fs.unlinkSync` fails for `a.mp3` and nothing else fails. -/
def sampleUnlinkFault : FsFaults :=
  { stat := fun _ => none,
    unlink := fun file => if file = "a.mp3" then some sampleUnlinkError else none,
    write := fun _ => none }

/-- An upstream that answers every call with the two bytes `02 03`. -/
def sampleUpstream2 : Upstream :=
  fun _ => .ok [2, 3]

/-! ## Lemmas on strings and file names -/

theorem trim_nil_iff (p : Char → Bool) (l : List Char) :
    ((l.dropWhile p).reverse.dropWhile p).reverse = [] ↔ ∀ c ∈ l, p c = true := by
  rw [List.reverse_eq_nil_iff, List.dropWhile_eq_nil_iff]
  constructor
  · intro h
    by_cases hnil : l.dropWhile p = []
    · exact List.dropWhile_eq_nil_iff.mp hnil
    · have h1 := List.head_dropWhile_not p l hnil
      have h2 := h _ (List.mem_reverse.mpr (List.head_mem hnil))
      simp [h2] at h1
  · intro h c hc
    have : l.dropWhile p = [] := List.dropWhile_eq_nil_iff.mpr h
    simp [this] at hc

theorem jsLength_eq_zero_iff (s : String) : jsLength s = 0 ↔ s.data = [] := by
  unfold jsLength
  cases s.data with
  | nil => simp
  | cons a t =>
    simp only [List.map_cons, List.sum_cons]
    constructor
    · intro h
      split at h <;> omega
    · intro h
      cases h

/-- The test `text.trim().length === 0` holds exactly for the strings made of white space
only (the empty string among them). -/
theorem trim_length_zero_iff (s : String) :
    jsLength (jsTrim s) = 0 ↔ ∀ c ∈ s.data, isJsWhiteSpace c = true := by
  rw [jsLength_eq_zero_iff]
  exact trim_nil_iff isJsWhiteSpace s.data

theorem hexDigit_inj : ∀ a < 16, ∀ b < 16, hexDigit a = hexDigit b → a = b := by decide

theorem hexDigit_isHex : ∀ d < 16, isHexDigit (hexDigit d) = true := by decide

theorem byteHex_inj (a b : Byte) (h : byteHex a = byteHex b) : a = b := by
  simp only [byteHex, List.cons.injEq, and_true] at h
  have h1 := hexDigit_inj _ (by omega) _ (by omega) h.1
  have h2 := hexDigit_inj _ (by omega) _ (by omega) h.2
  apply Fin.ext
  omega

theorem flatMap_byteHex_inj : ∀ (l1 l2 : List Byte),
    l1.flatMap byteHex = l2.flatMap byteHex → l1 = l2
  | [], [] => fun _ => rfl
  | [], b :: t => fun h => by simp [byteHex] at h
  | a :: t, [] => fun h => by simp [byteHex] at h
  | a :: t1, b :: t2 => fun h => by
    simp only [List.flatMap_cons, byteHex, List.cons_append, List.nil_append,
      List.cons.injEq] at h
    have hab : a = b := byteHex_inj a b (by simp [byteHex, h.1, h.2.1])
    rw [hab, flatMap_byteHex_inj t1 t2 h.2.2]

theorem length_flatMap_byteHex (l : List Byte) :
    (l.flatMap byteHex).length = 2 * l.length := by
  induction l with
  | nil => rfl
  | cons a t ih => simp [List.flatMap_cons, byteHex, ih]; omega

theorem flatMap_byteHex_isHex (l : List Byte) :
    ∀ c ∈ l.flatMap byteHex, isHexDigit c = true := by
  intro c hc
  obtain ⟨b, _, hb⟩ := List.mem_flatMap.mp hc
  simp only [byteHex, List.mem_cons, List.mem_singleton, List.not_mem_nil, or_false] at hb
  rcases hb with rfl | rfl
  · exact hexDigit_isHex _ (by omega)
  · exact hexDigit_isHex _ (by omega)

theorem filename_data (token : List Byte) :
    (filename token).data = token.flatMap byteHex ++ ['.', 'm', 'p', '3'] := by
  simp [filename, toHex, String.data_append]

theorem filename_inj (t1 t2 : List Byte) (h : filename t1 = filename t2) : t1 = t2 := by
  have h' := congrArg String.data h
  rw [filename_data, filename_data] at h'
  exact flatMap_byteHex_inj _ _ (List.append_cancel_right h')

/-! ## Lemmas on the file store -/

theorem FileStore.ext_entries (s t : FileStore) (h : s.entries = t.entries) : s = t := by
  cases s; cases t; cases h; rfl

theorem lookup_append_cons (kept tl : List (String × AudioFile)) (n : String) (f : AudioFile)
    (h : n ∉ kept.map Prod.fst) : (kept ++ (n, f) :: tl).lookup n = some f := by
  induction kept with
  | nil => simp
  | cons a t ih =>
    obtain ⟨k, v⟩ := a
    simp only [List.map_cons, List.mem_cons, not_or] at h
    have hk : (n == k) = false := by simpa using h.1
    simp [List.lookup_cons, hk, ih h.2]

theorem filter_ne_of_not_mem (l : List (String × AudioFile)) (n : String)
    (h : n ∉ l.map Prod.fst) : l.filter (fun e => decide (e.1 ≠ n)) = l := by
  rw [List.filter_eq_self]
  intro e he
  have : e.1 ≠ n := fun hn => h (hn ▸ List.mem_map_of_mem Prod.fst he)
  simpa using this

theorem lookup_filter_ne (l : List (String × AudioFile)) (n m : String) (h : m ≠ n) :
    (l.filter (fun e => decide (e.1 ≠ n))).lookup m = l.lookup m := by
  induction l with
  | nil => rfl
  | cons a t ih =>
    obtain ⟨k, v⟩ := a
    by_cases hk : k = n
    · have hp : ¬ ((fun e : String × AudioFile => decide (e.1 ≠ n)) (k, v) = true) := by
        simp [hk]
      have hmk : (m == k) = false := by rw [hk]; simpa using h
      rw [@List.filter_cons_of_neg _ (fun e => decide (e.1 ≠ n)) (k, v) t hp,
        List.lookup_cons, hmk]
      exact ih
    · have hp : (fun e : String × AudioFile => decide (e.1 ≠ n)) (k, v) = true := by
        simp [hk]
      rw [@List.filter_cons_of_pos _ (fun e => decide (e.1 ≠ n)) (k, v) t hp,
        List.lookup_cons, List.lookup_cons, ih]

theorem lookup_writeEntries_self (file : String) (g : AudioFile)
    (l : List (String × AudioFile)) : (writeEntries file g l).lookup file = some g := by
  induction l with
  | nil => simp [writeEntries]
  | cons a t ih =>
    obtain ⟨k, v⟩ := a
    by_cases hk : k = file
    · simp [writeEntries, hk]
    · have hb : (file == k) = false := by simpa using fun h : file = k => hk h.symm
      simp only [writeEntries, hk, if_false]
      rw [List.lookup_cons, hb]
      exact ih

theorem lookup_writeEntries_ne (file other : String) (g : AudioFile)
    (l : List (String × AudioFile)) (h : other ≠ file) :
    (writeEntries file g l).lookup other = l.lookup other := by
  have hb : (other == file) = false := by simpa using h
  induction l with
  | nil => simp [writeEntries, List.lookup_cons, hb]
  | cons a t ih =>
    obtain ⟨k, v⟩ := a
    by_cases hk : k = file
    · have hbk : (other == k) = false := by rw [hk]; exact hb
      simp only [writeEntries, if_pos hk]
      rw [List.lookup_cons, List.lookup_cons, hb, hbk]
    · simp only [writeEntries, if_neg hk]
      rw [List.lookup_cons, List.lookup_cons, ih]

theorem lookup_write_self (st : FileStore) (file : String) (g : AudioFile) :
    (st.write file g).lookup file = some g :=
  lookup_writeEntries_self file g st.entries

theorem lookup_write_ne (st : FileStore) (file other : String) (g : AudioFile)
    (h : other ≠ file) : (st.write file g).lookup other = st.lookup other :=
  lookup_writeEntries_ne file other g st.entries h

/-! ## Lemmas on the janitor -/

theorem sweepFile_old (faults : FsFaults) (now : Int) (s : FileStore) (n : String)
    (f : AudioFile) (hstat : faults.stat n = none) (hunlink : faults.unlink n = none)
    (hl : s.lookup n = some f) (hold : now - f.mtimeMs > 3600000) :
    sweepFile faults now s n = .ok (s.remove n) := by
  simp [sweepFile, statSync, unlinkSync, hstat, hunlink, hl, hold]

theorem sweepFile_fresh (faults : FsFaults) (now : Int) (s : FileStore) (n : String)
    (f : AudioFile) (hstat : faults.stat n = none)
    (hl : s.lookup n = some f) (hfresh : now - f.mtimeMs ≤ 3600000) :
    sweepFile faults now s n = .ok s := by
  have : ¬ (now - f.mtimeMs > 3600000) := by omega
  simp [sweepFile, statSync, hstat, hl, this]

/-- While no call fails, the loop over a block `pre` of directory entries leaves the fresh
ones of the block in place, removes the old ones and touches nothing else. -/
theorem forEachFile_prefix (faults : FsFaults) (now : Int) (names : List String)
    (rest : List (String × AudioFile)) :
    ∀ (pre kept : List (String × AudioFile)) (s s' : FileStore),
      s.entries = kept ++ (pre ++ rest) →
      s'.entries = kept ++ (pre.filter (fun e => decide (now - e.2.mtimeMs ≤ 3600000)) ++ rest) →
      (∀ e ∈ pre, faults.stat e.1 = none ∧ faults.unlink e.1 = none) →
      forEachFile faults now (pre.map Prod.fst ++ names) s = forEachFile faults now names s'
  | [], kept, s, s', hs, hs', _ => by
    have : s = s' := FileStore.ext_entries s s' (by rw [hs, hs']; rfl)
    rw [this]; rfl
  | (n, f) :: tl, kept, s, s', hs, hs', hok => by
    have hnd := s.nodup
    rw [hs, List.map_append, List.nodup_append] at hnd
    obtain ⟨_, hnd2, hdisj⟩ := hnd
    have hnk : n ∉ kept.map Prod.fst := fun hmem =>
      hdisj hmem (by simp)
    have hnt : n ∉ (tl ++ rest).map Prod.fst := by
      have := hnd2
      rw [List.cons_append, List.map_cons, List.nodup_cons] at this
      exact this.1
    have hl : s.lookup n = some f := by
      unfold FileStore.lookup
      rw [hs]
      exact lookup_append_cons kept (tl ++ rest) n f hnk
    obtain ⟨hstat, hunlink⟩ := hok (n, f) (List.mem_cons_self _ _)
    have hok' : ∀ e ∈ tl, faults.stat e.1 = none ∧ faults.unlink e.1 = none :=
      fun e he => hok e (List.mem_cons_of_mem _ he)
    show forEachFile faults now (n :: (tl.map Prod.fst ++ names)) s = _
    by_cases hold : now - f.mtimeMs > 3600000
    · have hstep := sweepFile_old faults now s n f hstat hunlink hl hold
      have hrem : (s.remove n).entries = kept ++ (tl ++ rest) := by
        show s.entries.filter (fun e => decide (e.1 ≠ n)) = _
        rw [hs, List.filter_append, filter_ne_of_not_mem kept n hnk, List.cons_append,
          @List.filter_cons_of_neg _ (fun e => decide (e.1 ≠ n)) (n, f) (tl ++ rest)
            (by simp),
          filter_ne_of_not_mem (tl ++ rest) n hnt]
      have hs2 : s'.entries = kept ++
          (tl.filter (fun e => decide (now - e.2.mtimeMs ≤ 3600000)) ++ rest) := by
        rw [hs', @List.filter_cons_of_neg _ (fun e => decide (now - e.2.mtimeMs ≤ 3600000))
          (n, f) tl (by simp; omega)]
      simp only [forEachFile, hstep]
      exact forEachFile_prefix faults now names rest tl kept (s.remove n) s' hrem hs2 hok'
    · have hfresh : now - f.mtimeMs ≤ 3600000 := by omega
      have hstep := sweepFile_fresh faults now s n f hstat hl hfresh
      have hs1 : s.entries = (kept ++ [(n, f)]) ++ (tl ++ rest) := by
        rw [hs]; simp
      have hs2 : s'.entries = (kept ++ [(n, f)]) ++
          (tl.filter (fun e => decide (now - e.2.mtimeMs ≤ 3600000)) ++ rest) := by
        rw [hs', @List.filter_cons_of_pos _ (fun e => decide (now - e.2.mtimeMs ≤ 3600000))
          (n, f) tl (by simpa using hfresh)]
        simp
      simp only [forEachFile, hstep]
      exact forEachFile_prefix faults now names rest tl (kept ++ [(n, f)]) s s' hs1 hs2 hok'

/-- A sweep during which no call on an entry of the store fails returns normally and
leaves exactly the fresh entries. -/
theorem janitor_noFaults (faults : FsFaults) (now : Int) (st : FileStore)
    (hok : ∀ file ∈ readdirSync st, faults.stat file = none ∧ faults.unlink file = none) :
    janitor faults now st = (st.keepFresh now, none) := by
  have h := forEachFile_prefix faults now [] [] st.entries [] st (st.keepFresh now)
    (by simp) (by simp [FileStore.keepFresh])
    (fun e he => hok e.1 (List.mem_map_of_mem Prod.fst he))
  rw [List.append_nil] at h
  unfold janitor readdirSync
  rw [h]
  rfl

theorem mem_of_lookup (l : List (String × AudioFile)) (n : String) (f : AudioFile)
    (h : l.lookup n = some f) : (n, f) ∈ l := by
  induction l with
  | nil => cases h
  | cons a t ih =>
    obtain ⟨k, v⟩ := a
    rw [List.lookup_cons] at h
    by_cases hk : (n == k) = true
    · rw [hk] at h
      have hn : n = k := by simpa using hk
      cases h
      rw [hn]
      exact List.mem_cons_self _ _
    · have hk' : (n == k) = false := by simpa using hk
      rw [hk'] at h
      exact List.mem_cons_of_mem _ (ih h)

theorem lookup_of_mem (l : List (String × AudioFile)) (n : String) (f : AudioFile)
    (hnd : (l.map Prod.fst).Nodup) (h : (n, f) ∈ l) : l.lookup n = some f := by
  obtain ⟨pre, post, rfl⟩ := List.append_of_mem h
  rw [List.map_append, List.nodup_append] at hnd
  exact lookup_append_cons pre post n f (fun hmem => hnd.2.2 hmem (by simp))

/-- What a name is bound to in the store of the fresh entries. -/
theorem lookup_keepFresh (now : Int) (st : FileStore) (file : String) :
    (st.keepFresh now).lookup file =
      (st.lookup file).filter (fun f => decide (now - f.mtimeMs ≤ 3600000)) := by
  cases hl : st.lookup file with
  | none =>
    cases hk : (st.keepFresh now).lookup file with
    | none => rfl
    | some g =>
      have hm := mem_of_lookup _ _ _ hk
      have hm' : (file, g) ∈ st.entries := (List.mem_filter.mp hm).1
      have := lookup_of_mem st.entries file g st.nodup hm'
      unfold FileStore.lookup at hl
      rw [hl] at this
      cases this
  | some f =>
    have hm : (file, f) ∈ st.entries := mem_of_lookup _ _ _ hl
    by_cases hf : now - f.mtimeMs ≤ 3600000
    · have hmem : (file, f) ∈ (st.keepFresh now).entries :=
        List.mem_filter.mpr ⟨hm, by simpa using hf⟩
      rw [FileStore.lookup, lookup_of_mem _ file f (st.keepFresh now).nodup hmem]
      simp [Option.filter, hf]
    · cases hk : (st.keepFresh now).lookup file with
      | none => simp [Option.filter, hf]
      | some g =>
        have hg := mem_of_lookup _ _ _ hk
        have hg' := List.mem_filter.mp hg
        have hfg := lookup_of_mem st.entries file g st.nodup hg'.1
        unfold FileStore.lookup at hl
        rw [hl] at hfg
        cases hfg
        have : now - f.mtimeMs ≤ 3600000 := by simpa using hg'.2
        exact absurd this hf

/-! ## Lemmas on the handler -/

theorem nonBlank_trim (s : String) (h : nonBlank s) : ¬ jsLength (jsTrim s) = 0 := by
  rw [trim_length_zero_iff]
  obtain ⟨c, hc, hw⟩ := h
  intro hall
  rw [hall c hc] at hw
  cases hw

theorem nonBlank_of_trim (s : String) (h : ¬ jsLength (jsTrim s) = 0) : nonBlank s := by
  rw [trim_length_zero_iff] at h
  by_contra hn
  apply h
  intro c hc
  by_contra hw
  exact hn ⟨c, hc, by simpa using hw⟩

theorem nonBlank_truthy (s : String) (h : nonBlank s) : truthy (.str s) = true := by
  obtain ⟨c, hc, _⟩ := h
  have : s ≠ "" := by
    intro hs
    rw [hs] at hc
    cases hc
  simp [truthy, this]

/-- The handler on a valid text when the upstream call and the write succeed. -/
theorem textToSpeech_ok (env : Env) (upstream : Upstream) (faults : FsFaults)
    (token : List Byte) (now : Int)
    (st : FileStore) (req : Request) (s : String) (data : List Byte)
    (ht : getProp (.obj req.body) "text" = .str s) (hs : nonBlank s)
    (hup : upstream (sentCall env req) = .ok data)
    (hw : faults.write (filename token) = none) :
    textToSpeech env upstream faults token now st req =
      { response :=
          { status := 200,
            body := successBody (audioUrl (BASE_URL env) (filename token)) req.voice_id s
              (getProp (.obj req.body) "model_id") },
        store := st.write (filename token) { content := data, mtimeMs := now },
        calls := [sentCall env req] } := by
  have h1 := nonBlank_truthy s hs
  have h2 := nonBlank_trim s hs
  unfold sentCall at hup
  rw [ht] at hup
  simp only [textToSpeech, ht, h1, h2, hup, sentCall, writeFileSync, hw]
  simp

/-- The handler on a valid text when the upstream call throws. -/
theorem textToSpeech_error (env : Env) (upstream : Upstream) (faults : FsFaults)
    (token : List Byte) (now : Int)
    (st : FileStore) (req : Request) (s : String) (e : JsError)
    (ht : getProp (.obj req.body) "text" = .str s) (hs : nonBlank s)
    (hup : upstream (sentCall env req) = .error e) :
    textToSpeech env upstream faults token now st req =
      { response := catchBlock e, store := st, calls := [sentCall env req] } := by
  have h1 := nonBlank_truthy s hs
  have h2 := nonBlank_trim s hs
  unfold sentCall at hup
  rw [ht] at hup
  simp only [textToSpeech, ht, h1, h2, hup, sentCall]
  simp

/-- The handler on a valid text when the upstream call succeeds and the write throws. -/
theorem textToSpeech_writeError (env : Env) (upstream : Upstream) (faults : FsFaults)
    (token : List Byte) (now : Int)
    (st : FileStore) (req : Request) (s : String) (data : List Byte) (e : JsError)
    (ht : getProp (.obj req.body) "text" = .str s) (hs : nonBlank s)
    (hup : upstream (sentCall env req) = .ok data)
    (hw : faults.write (filename token) = some e) :
    textToSpeech env upstream faults token now st req =
      { response := catchBlock e, store := st, calls := [sentCall env req] } := by
  have h1 := nonBlank_truthy s hs
  have h2 := nonBlank_trim s hs
  unfold sentCall at hup
  rw [ht] at hup
  simp only [textToSpeech, ht, h1, h2, hup, sentCall, writeFileSync, hw]
  simp

theorem catchBlock_status (e : JsError) : (catchBlock e).status ≠ 200 := by
  unfold catchBlock
  split
  · decide
  · split
    · decide
    · split
      · decide
      · show (500 : Nat) ≠ 200
        decide

/-- A response with status 200 comes from the success path only: the text is a non-blank
string, the upstream call returned bytes and the write did not throw. -/
theorem textToSpeech_status_200 (env : Env) (upstream : Upstream) (faults : FsFaults)
    (token : List Byte) (now : Int) (st : FileStore) (req : Request)
    (h : (textToSpeech env upstream faults token now st req).response.status = 200) :
    ∃ s data, getProp (.obj req.body) "text" = .str s ∧ nonBlank s ∧
      upstream (sentCall env req) = .ok data ∧ faults.write (filename token) = none := by
  cases ht : getProp (.obj req.body) "text" with
  | str s =>
    by_cases h1 : truthy (.str s) = true
    · by_cases h2 : jsLength (jsTrim s) = 0
      · simp [textToSpeech, ht, h1, h2, textRequired] at h
      · have hs := nonBlank_of_trim s h2
        cases hup : upstream (sentCall env req) with
        | error e =>
          rw [textToSpeech_error env upstream faults token now st req s e ht hs hup] at h
          exact absurd h (catchBlock_status e)
        | ok data =>
          cases hw : faults.write (filename token) with
          | none => exact ⟨s, data, rfl, hs, rfl, rfl⟩
          | some e =>
            rw [textToSpeech_writeError env upstream faults token now st req s data e ht hs
              hup hw] at h
            exact absurd h (catchBlock_status e)
    · simp [textToSpeech, ht, h1, textRequired] at h
  | undefined => simp [textToSpeech, ht, truthy, textRequired] at h
  | null => simp [textToSpeech, ht, truthy, textRequired] at h
  | bool b =>
    cases b with
    | false => simp [textToSpeech, ht, truthy, textRequired] at h
    | true =>
      have := catchBlock_status trimNotAFunction
      simp [textToSpeech, ht, truthy] at h
      exact absurd h this
  | num q =>
    have := catchBlock_status trimNotAFunction
    by_cases hq : q = 0
    · simp [textToSpeech, ht, truthy, hq, textRequired] at h
    · simp [textToSpeech, ht, truthy, hq] at h
      exact absurd h this
  | arr items =>
    have := catchBlock_status trimNotAFunction
    simp [textToSpeech, ht, truthy] at h
    exact absurd h this
  | obj fields =>
    have := catchBlock_status trimNotAFunction
    simp [textToSpeech, ht, truthy] at h
    exact absurd h this

/-- Whatever the outcome, the handler touches no file other than the one named after its
token. -/
theorem textToSpeech_lookup_other (env : Env) (upstream : Upstream) (faults : FsFaults)
    (token : List Byte) (now : Int) (st : FileStore) (req : Request) (other : String)
    (h : other ≠ filename token) :
    (textToSpeech env upstream faults token now st req).store.lookup other =
      st.lookup other := by
  unfold textToSpeech
  simp only []
  split
  · rfl
  · split
    · split
      · rfl
      · split
        · rfl
        · cases hw : faults.write (filename token) with
          | some e => simp only [writeFileSync, hw]
          | none =>
            simp only [writeFileSync, hw]
            exact lookup_write_ne st (filename token) other _ h
    · rfl

/-- The three kinds of response of the handler: the validation error, the answer of the
`catch` block to some error, or the success response, the latter only when the text is a
non-blank string, the upstream call returned bytes and the write did not throw. -/
theorem textToSpeech_response_cases (env : Env) (upstream : Upstream) (faults : FsFaults)
    (token : List Byte) (now : Int) (st : FileStore) (req : Request) :
    (textToSpeech env upstream faults token now st req).response = textRequired ∨
    (∃ e, (textToSpeech env upstream faults token now st req).response = catchBlock e) ∨
    (∃ s data, getProp (.obj req.body) "text" = .str s ∧ nonBlank s ∧
      upstream (sentCall env req) = .ok data ∧ faults.write (filename token) = none) := by
  cases ht : getProp (.obj req.body) "text" with
  | str s =>
    by_cases h1 : truthy (.str s) = true
    · by_cases h2 : jsLength (jsTrim s) = 0
      · exact Or.inl (by simp [textToSpeech, ht, h1, h2])
      · have hs := nonBlank_of_trim s h2
        cases hup : upstream (sentCall env req) with
        | error e =>
          exact Or.inr (Or.inl ⟨e, by
            rw [textToSpeech_error env upstream faults token now st req s e ht hs hup]⟩)
        | ok data =>
          cases hw : faults.write (filename token) with
          | none => exact Or.inr (Or.inr ⟨s, data, rfl, hs, rfl, rfl⟩)
          | some e =>
            exact Or.inr (Or.inl ⟨e, by
              rw [textToSpeech_writeError env upstream faults token now st req s data e ht hs
                hup hw]⟩)
    · exact Or.inl (by simp [textToSpeech, ht, h1])
  | undefined => exact Or.inl (by simp [textToSpeech, ht, truthy])
  | null => exact Or.inl (by simp [textToSpeech, ht, truthy])
  | bool b =>
    cases b with
    | false => exact Or.inl (by simp [textToSpeech, ht, truthy])
    | true => exact Or.inr (Or.inl ⟨trimNotAFunction, by simp [textToSpeech, ht, truthy]⟩)
  | num q =>
    by_cases hq : q = 0
    · exact Or.inl (by simp [textToSpeech, ht, truthy, hq])
    · exact Or.inr (Or.inl ⟨trimNotAFunction, by simp [textToSpeech, ht, truthy, hq]⟩)
  | arr items =>
    exact Or.inr (Or.inl ⟨trimNotAFunction, by simp [textToSpeech, ht, truthy]⟩)
  | obj fields =>
    exact Or.inr (Or.inl ⟨trimNotAFunction, by simp [textToSpeech, ht, truthy]⟩)

theorem catchBlock_audio_url (e : JsError) :
    getProp (catchBlock e).body "audio_url" = .undefined := by
  unfold catchBlock
  split
  · rfl
  · split
    · rfl
    · split
      · rfl
      · rfl

/-- With `BASE_URL` unset the base URL is the template literal of line 16, which ends in a
tab character, so the URLs built from it have a tab before `/audio/`. -/
theorem default_base_url_ends_in_tab :
    (BASE_URL { ELEVENLABS_API_KEY := none, BASE_URL := none }).data.getLast? = some '\t' := by
  decide

theorem staticGet_audio (st : FileStore) (file : String) :
    staticGet st ("/audio/" ++ file) = (st.lookup file).map (fun f => f.content) := by
  have hd : ("/audio/" ++ file).data = ['/', 'a', 'u', 'd', 'i', 'o', '/'] ++ file.data := by
    rw [String.data_append]
  unfold staticGet
  rw [hd]
  simp [List.isPrefixOf]

/-! ## The claims -/

/-- C2: a request whose body text is missing, is the empty string or consists of white
space only is answered with status 400 and body `{error: 'El texto es requerido'}`; no
upstream call is made and the file store is left as it was. -/
theorem blank_text_rejected (env : Env) (upstream : Upstream) (faults : FsFaults)
    (token : List Byte) (now : Int) (st : FileStore) (req : Request)
    (h : req.body.lookup "text" = none ∨ req.body.lookup "text" = some (.str "") ∨
      ∃ s, req.body.lookup "text" = some (.str s) ∧ blank s) :
    (textToSpeech env upstream faults token now st req).response.status = 400 ∧
    (textToSpeech env upstream faults token now st req).response.body =
      .obj [("error", .str "El texto es requerido")] ∧
    (textToSpeech env upstream faults token now st req).calls = [] ∧
    (textToSpeech env upstream faults token now st req).store = st := by
  rcases h with h | h | ⟨s, h, hb⟩
  · simp [textToSpeech, getProp, h, truthy, textRequired]
  · simp [textToSpeech, getProp, h, truthy, textRequired]
  · have hz : jsLength (jsTrim s) = 0 := (trim_length_zero_iff s).mpr hb
    by_cases ht : truthy (.str s) = true
    · simp [textToSpeech, getProp, h, ht, hz, textRequired]
    · simp [textToSpeech, getProp, h, ht, textRequired]

/-- The rejection of a blank text, on a request whose text is a space, a tab and a line
feed. -/
theorem blank_text_rejected_witness :
    blank " \t\n" ∧
    (textToSpeech sampleEnv sampleUpstream noFaults sampleToken 0 FileStore.empty
      sampleBlankRequest).response.status = 400 ∧
    (textToSpeech sampleEnv sampleUpstream noFaults sampleToken 0 FileStore.empty
      sampleBlankRequest).calls = [] :=
  have hb : blank " \t\n" := by unfold blank; decide
  have h := blank_text_rejected sampleEnv sampleUpstream noFaults sampleToken 0
    FileStore.empty sampleBlankRequest (Or.inr (Or.inr ⟨" \t\n", rfl, hb⟩))
  ⟨hb, h.1, h.2.2.1⟩

/-- C3: when, for a request that passed validation, the upstream call throws, or the write
of the file throws after it, the response is determined by the error alone: an upstream
response with status 401 gives 401 `API key inválida`, 404 gives 404
`Voice ID no encontrado`, 429 gives 429 `Límite de cuota excedido`, and an upstream
response with any other status, or an error without upstream response, gives 500
`Error al generar audio` with `details` equal to the message of the error. -/
theorem failure_translation (env : Env) (upstream : Upstream) (faults : FsFaults)
    (token : List Byte) (now : Int) (st : FileStore) (req : Request) (s : String)
    (e : JsError)
    (ht : getProp (.obj req.body) "text" = .str s) (hs : nonBlank s)
    (hfail : upstream (sentCall env req) = .error e ∨
      ∃ data, upstream (sentCall env req) = .ok data ∧
        faults.write (filename token) = some e) :
    (e.response = some { status := 401 } →
      (textToSpeech env upstream faults token now st req).response =
        { status := 401, body := .obj [("error", .str "API key inválida")] }) ∧
    (e.response = some { status := 404 } →
      (textToSpeech env upstream faults token now st req).response =
        { status := 404, body := .obj [("error", .str "Voice ID no encontrado")] }) ∧
    (e.response = some { status := 429 } →
      (textToSpeech env upstream faults token now st req).response =
        { status := 429, body := .obj [("error", .str "Límite de cuota excedido")] }) ∧
    ((∀ r, e.response = some r → r.status ≠ 401 ∧ r.status ≠ 404 ∧ r.status ≠ 429) →
      (textToSpeech env upstream faults token now st req).response =
        { status := 500,
          body := .obj [("error", .str "Error al generar audio"),
                        ("details", .str e.message)] }) ∧
    (e.response = none →
      (textToSpeech env upstream faults token now st req).response =
        { status := 500,
          body := .obj [("error", .str "Error al generar audio"),
                        ("details", .str e.message)] }) := by
  have hr : (textToSpeech env upstream faults token now st req).response = catchBlock e := by
    rcases hfail with hup | ⟨data, hup, hw⟩
    · rw [textToSpeech_error env upstream faults token now st req s e ht hs hup]
    · rw [textToSpeech_writeError env upstream faults token now st req s data e ht hs hup hw]
  rw [hr]
  refine ⟨?_, ?_, ?_, ?_, ?_⟩
  · intro h; simp [catchBlock, errorStatus, h]
  · intro h; simp [catchBlock, errorStatus, h]
  · intro h; simp [catchBlock, errorStatus, h]
  · intro h
    cases hresp : e.response with
    | none => simp [catchBlock, errorStatus, hresp]
    | some r =>
      obtain ⟨h1, h2, h3⟩ := h r hresp
      simp [catchBlock, errorStatus, hresp, h1, h2, h3]
  · intro h; simp [catchBlock, errorStatus, h]

/-- The translation of a failure, on an upstream that answers 404. -/
theorem failure_translation_witness :
    nonBlank "Hello world" ∧
    sampleUpstream404 (sentCall sampleEnv sampleRequest) = .error sampleError404 ∧
    (textToSpeech sampleEnv sampleUpstream404 noFaults sampleToken 0 FileStore.empty
      sampleRequest).response =
        { status := 404, body := .obj [("error", .str "Voice ID no encontrado")] } :=
  have hs : nonBlank "Hello world" := ⟨'H', by decide, by decide⟩
  ⟨hs, rfl,
    (failure_translation sampleEnv sampleUpstream404 noFaults sampleToken 0 FileStore.empty
      sampleRequest "Hello world" sampleError404 rfl hs (Or.inl rfl)).2.1 rfl⟩

/-- C1 as stated fails: with non-blank text and an upstream call that succeeds, a write
that throws leaves nothing stored under the generated name; the response is 500 without
`audio_url` and a GET of `/audio/` plus the name finds no file. -/
theorem write_failure_breaks_roundtrip :
    nonBlank "Hello world" ∧
    sampleUpstream (sentCall sampleEnv sampleRequest) = .ok [0, 1] ∧
    (textToSpeech sampleEnv sampleUpstream sampleWriteFault sampleToken 0 FileStore.empty
      sampleRequest).response.status = 500 ∧
    getProp (textToSpeech sampleEnv sampleUpstream sampleWriteFault sampleToken 0
      FileStore.empty sampleRequest).response.body "audio_url" = .undefined ∧
    ((textToSpeech sampleEnv sampleUpstream sampleWriteFault sampleToken 0 FileStore.empty
      sampleRequest).store.lookup (filename sampleToken)).map (fun f => f.content) = none ∧
    staticGet (textToSpeech sampleEnv sampleUpstream sampleWriteFault sampleToken 0
      FileStore.empty sampleRequest).store ("/audio/" ++ filename sampleToken) = none := by
  have hs : nonBlank "Hello world" := ⟨'H', by decide, by decide⟩
  rw [textToSpeech_writeError sampleEnv sampleUpstream sampleWriteFault sampleToken 0
    FileStore.empty sampleRequest "Hello world" [0, 1] sampleWriteError rfl hs rfl rfl]
  refine ⟨hs, rfl, rfl, rfl, rfl, ?_⟩
  rw [staticGet_audio]
  rfl

/-- C1, amended: for a request with non-blank text whose upstream call succeeds with bytes
`data` and whose file write does not throw, the handler stores exactly `data` under the
generated file name, the returned `audio_url` is the base URL followed by `/audio/` and
that name, and a GET of `/audio/` plus the name on the resulting file store returns
exactly `data`. -/
theorem synthesis_roundtrip (env : Env) (upstream : Upstream) (faults : FsFaults)
    (token : List Byte) (now : Int)
    (st : FileStore) (req : Request) (s : String) (data : List Byte)
    (ht : getProp (.obj req.body) "text" = .str s) (hs : nonBlank s)
    (hup : upstream (sentCall env req) = .ok data)
    (hw : faults.write (filename token) = none) :
    (textToSpeech env upstream faults token now st req).store.lookup (filename token) =
      some { content := data, mtimeMs := now } ∧
    getProp (textToSpeech env upstream faults token now st req).response.body "audio_url" =
      .str (BASE_URL env ++ ("/audio/" ++ filename token)) ∧
    staticGet (textToSpeech env upstream faults token now st req).store
      ("/audio/" ++ filename token) = some data := by
  rw [textToSpeech_ok env upstream faults token now st req s data ht hs hup hw]
  refine ⟨?_, ?_, ?_⟩
  · exact lookup_write_self _ _ _
  · show JsVal.str (audioUrl (BASE_URL env) (filename token)) = _
    rw [audioUrl, String.append_assoc]
  · simp [staticGet_audio, lookup_write_self]

/-- The round trip on the request `{"text":"Hello world"}` with upstream bytes `00 01`. -/
theorem synthesis_roundtrip_witness :
    nonBlank "Hello world" ∧
    sampleUpstream (sentCall sampleEnv sampleRequest) = .ok [0, 1] ∧
    noFaults.write (filename sampleToken) = none ∧
    staticGet (textToSpeech sampleEnv sampleUpstream noFaults sampleToken 0 FileStore.empty
      sampleRequest).store ("/audio/" ++ filename sampleToken) = some [0, 1] :=
  have hs : nonBlank "Hello world" := ⟨'H', by decide, by decide⟩
  ⟨hs, rfl, rfl,
    (synthesis_roundtrip sampleEnv sampleUpstream noFaults sampleToken 0 FileStore.empty
      sampleRequest "Hello world" [0, 1] rfl hs rfl rfl).2.2⟩

/-- C4 as stated fails, in two ways: with `model_id` supplied as the empty string the
response is 200 and its `model` is `'eleven_multilingual_v2'`, not the supplied value; and
with a write that throws after a successful upstream call the response is 500, not 200. -/
theorem success_metadata_fails :
    sampleEmptyModelRequest.body.lookup "model_id" = some (.str "") ∧
    (textToSpeech sampleEnv sampleUpstream noFaults sampleToken 0 FileStore.empty
      sampleEmptyModelRequest).response.status = 200 ∧
    getProp (textToSpeech sampleEnv sampleUpstream noFaults sampleToken 0 FileStore.empty
      sampleEmptyModelRequest).response.body "model" = .str "eleven_multilingual_v2" ∧
    getProp (textToSpeech sampleEnv sampleUpstream noFaults sampleToken 0 FileStore.empty
      sampleEmptyModelRequest).response.body "model" ≠ .str "" ∧
    sampleUpstream (sentCall sampleEnv sampleRequest) = .ok [0, 1] ∧
    (textToSpeech sampleEnv sampleUpstream sampleWriteFault sampleToken 0 FileStore.empty
      sampleRequest).response.status = 500 ∧
    getProp (textToSpeech sampleEnv sampleUpstream sampleWriteFault sampleToken 0
      FileStore.empty sampleRequest).response.body "success" = .undefined := by
  have hs : nonBlank "Hello world" := ⟨'H', by decide, by decide⟩
  rw [textToSpeech_ok sampleEnv sampleUpstream noFaults sampleToken 0 FileStore.empty
    sampleEmptyModelRequest "Hello world" [0, 1] rfl hs rfl rfl,
    textToSpeech_writeError sampleEnv sampleUpstream sampleWriteFault sampleToken 0
    FileStore.empty sampleRequest "Hello world" [0, 1] sampleWriteError rfl hs rfl rfl]
  have hm : getProp (successBody (audioUrl (BASE_URL sampleEnv) (filename sampleToken))
      sampleEmptyModelRequest.voice_id "Hello world"
      (getProp (.obj sampleEmptyModelRequest.body) "model_id")) "model" =
      .str "eleven_multilingual_v2" := rfl
  refine ⟨rfl, rfl, hm, ?_, rfl, rfl, rfl⟩
  rw [hm]
  simp

/-- C4, amended: for a request with non-blank text whose upstream call succeeds and whose
file write does not throw, the response is 200 with `success` true, `voice_id` the path
parameter, `text_length` the length (in UTF-16 code units) of the text as supplied, and
`model` the supplied `model_id` when that value is truthy, `'eleven_multilingual_v2'` when
it is absent or falsy. -/
theorem success_metadata (env : Env) (upstream : Upstream) (faults : FsFaults)
    (token : List Byte) (now : Int)
    (st : FileStore) (req : Request) (s : String) (data : List Byte)
    (ht : getProp (.obj req.body) "text" = .str s) (hs : nonBlank s)
    (hup : upstream (sentCall env req) = .ok data)
    (hw : faults.write (filename token) = none) :
    (textToSpeech env upstream faults token now st req).response.status = 200 ∧
    getProp (textToSpeech env upstream faults token now st req).response.body "success" =
      .bool true ∧
    getProp (textToSpeech env upstream faults token now st req).response.body "voice_id" =
      .str req.voice_id ∧
    getProp (textToSpeech env upstream faults token now st req).response.body "text_length" =
      .num (jsLength s) ∧
    (truthy (getProp (.obj req.body) "model_id") = true →
      getProp (textToSpeech env upstream faults token now st req).response.body "model" =
        getProp (.obj req.body) "model_id") ∧
    (truthy (getProp (.obj req.body) "model_id") = false →
      getProp (textToSpeech env upstream faults token now st req).response.body "model" =
        .str "eleven_multilingual_v2") ∧
    (req.body.lookup "model_id" = none →
      getProp (textToSpeech env upstream faults token now st req).response.body "model" =
        .str "eleven_multilingual_v2") := by
  rw [textToSpeech_ok env upstream faults token now st req s data ht hs hup hw]
  have hm : getProp (successBody (audioUrl (BASE_URL env) (filename token)) req.voice_id s
      (getProp (.obj req.body) "model_id")) "model" =
      jsOr (getProp (.obj req.body) "model_id") (.str "eleven_multilingual_v2") := rfl
  refine ⟨rfl, rfl, rfl, rfl, ?_, ?_, ?_⟩
  · intro h
    rw [hm, jsOr, if_pos h]
  · intro h
    rw [hm, jsOr, h]
    rfl
  · intro h
    have hu : getProp (.obj req.body) "model_id" = .undefined := by
      simp [getProp, h]
    rw [hm, hu]
    rfl

/-- The success response for `{"text":"Hello world"}`: `text_length` 11 and the default
model. -/
theorem success_metadata_witness :
    nonBlank "Hello world" ∧
    sampleUpstream (sentCall sampleEnv sampleRequest) = .ok [0, 1] ∧
    noFaults.write (filename sampleToken) = none ∧
    (textToSpeech sampleEnv sampleUpstream noFaults sampleToken 0 FileStore.empty
      sampleRequest).response.status = 200 ∧
    getProp (textToSpeech sampleEnv sampleUpstream noFaults sampleToken 0 FileStore.empty
      sampleRequest).response.body "text_length" = .num 11 ∧
    getProp (textToSpeech sampleEnv sampleUpstream noFaults sampleToken 0 FileStore.empty
      sampleRequest).response.body "model" = .str "eleven_multilingual_v2" :=
  have hs : nonBlank "Hello world" := ⟨'H', by decide, by decide⟩
  have h := success_metadata sampleEnv sampleUpstream noFaults sampleToken 0 FileStore.empty
    sampleRequest "Hello world" [0, 1] rfl hs rfl rfl
  have hlen : jsLength "Hello world" = 11 := by decide
  ⟨hs, rfl, rfl, h.1, by rw [h.2.2.2.1, hlen]; rfl, h.2.2.2.2.2.2 rfl⟩

/-- C5: for a sixteen-byte token the generated file name is 32 lower-case hexadecimal
digits followed by `.mp3`, 36 characters in all, none of them a path separator (`/` or
backslash); and the `audio_url` of a 200 response, which is the only response that has
one, is the configured base URL followed by `/audio/` and that file name. -/
theorem filename_shape (env : Env) (upstream : Upstream) (faults : FsFaults)
    (token : List Byte) (now : Int) (st : FileStore) (req : Request)
    (hlen : token.length = 16) :
    (∃ hex : List Char, hex.length = 32 ∧ (∀ c ∈ hex, isHexDigit c = true) ∧
      (filename token).data = hex ++ ['.', 'm', 'p', '3']) ∧
    (filename token).length = 36 ∧
    '/' ∉ (filename token).data ∧
    Char.ofNat 92 ∉ (filename token).data ∧
    ((textToSpeech env upstream faults token now st req).response.status = 200 →
      getProp (textToSpeech env upstream faults token now st req).response.body "audio_url" =
        .str (BASE_URL env ++ "/audio/" ++ filename token)) ∧
    (∀ u, getProp (textToSpeech env upstream faults token now st req).response.body
        "audio_url" = .str u → u = BASE_URL env ++ "/audio/" ++ filename token) := by
  have hhex := flatMap_byteHex_isHex token
  have hl : (token.flatMap byteHex).length = 32 := by
    rw [length_flatMap_byteHex, hlen]
  refine ⟨⟨token.flatMap byteHex, hl, hhex, filename_data token⟩, ?_, ?_, ?_, ?_, ?_⟩
  · show (filename token).data.length = 36
    rw [filename_data, List.length_append, hl]
    rfl
  · rw [filename_data, List.mem_append]
    rintro (h | h)
    · have := hhex _ h
      revert this
      decide
    · revert h
      decide
  · rw [filename_data, List.mem_append]
    rintro (h | h)
    · have := hhex _ h
      revert this
      decide
    · revert h
      decide
  · intro h200
    obtain ⟨s, data, ht, hs, hup, hw⟩ :=
      textToSpeech_status_200 env upstream faults token now st req h200
    rw [textToSpeech_ok env upstream faults token now st req s data ht hs hup hw]
    rfl
  · intro u hu
    rcases textToSpeech_response_cases env upstream faults token now st req with
      h | ⟨e, h⟩ | ⟨s, data, ht, hs, hup, hw⟩
    · rw [h] at hu
      cases hu
    · rw [h, catchBlock_audio_url] at hu
      cases hu
    · rw [textToSpeech_ok env upstream faults token now st req s data ht hs hup hw] at hu
      have hu' : JsVal.str (audioUrl (BASE_URL env) (filename token)) = JsVal.str u := hu
      injection hu' with hu'
      rw [← hu']
      rfl

/-- The shape of the file name on a sample sixteen-byte token, and the URL returned for
it. -/
theorem filename_shape_witness :
    sampleToken.length = 16 ∧
    filename sampleToken = "000102030405060708090a0b0c0d0eff.mp3" ∧
    (filename sampleToken).length = 36 ∧
    (textToSpeech sampleEnv sampleUpstream noFaults sampleToken 0 FileStore.empty
      sampleRequest).response.status = 200 ∧
    getProp (textToSpeech sampleEnv sampleUpstream noFaults sampleToken 0 FileStore.empty
      sampleRequest).response.body "audio_url" =
      .str (BASE_URL sampleEnv ++ "/audio/" ++ filename sampleToken) :=
  have h := filename_shape sampleEnv sampleUpstream noFaults sampleToken 0 FileStore.empty
    sampleRequest rfl
  have h200 : (textToSpeech sampleEnv sampleUpstream noFaults sampleToken 0 FileStore.empty
      sampleRequest).response.status = 200 := by decide
  ⟨rfl, by decide, h.2.1, h200, h.2.2.2.2.1 h200⟩

/-- C6: the file name depends on the token alone and distinct tokens give distinct file
names; of two requests that draw distinct tokens neither touches the file named after the
token of the other, whatever their outcome, and when both answer 200 each file is in the
store with the bytes of its own request. -/
theorem distinct_tokens_distinct_files (env : Env) (up1 up2 : Upstream)
    (faults1 faults2 : FsFaults) (t1 t2 : List Byte) (now1 now2 : Int) (st : FileStore)
    (req1 req2 : Request) (hne : t1 ≠ t2) :
    (∀ a b : List Byte, filename a = filename b → a = b) ∧
    filename t1 ≠ filename t2 ∧
    (textToSpeech env up2 faults2 t2 now2
      (textToSpeech env up1 faults1 t1 now1 st req1).store req2).store.lookup (filename t1) =
      (textToSpeech env up1 faults1 t1 now1 st req1).store.lookup (filename t1) ∧
    (textToSpeech env up1 faults1 t1 now1 st req1).store.lookup (filename t2) =
      st.lookup (filename t2) ∧
    (∀ d1 d2, up1 (sentCall env req1) = .ok d1 → up2 (sentCall env req2) = .ok d2 →
      (textToSpeech env up1 faults1 t1 now1 st req1).response.status = 200 →
      (textToSpeech env up2 faults2 t2 now2
        (textToSpeech env up1 faults1 t1 now1 st req1).store req2).response.status = 200 →
      (textToSpeech env up2 faults2 t2 now2
        (textToSpeech env up1 faults1 t1 now1 st req1).store req2).store.lookup
          (filename t1) = some { content := d1, mtimeMs := now1 } ∧
      (textToSpeech env up2 faults2 t2 now2
        (textToSpeech env up1 faults1 t1 now1 st req1).store req2).store.lookup
          (filename t2) = some { content := d2, mtimeMs := now2 }) := by
  have hfn : filename t1 ≠ filename t2 := fun h => hne (filename_inj t1 t2 h)
  refine ⟨filename_inj, hfn, ?_, ?_, ?_⟩
  · exact textToSpeech_lookup_other env up2 faults2 t2 now2 _ req2 (filename t1) hfn
  · exact textToSpeech_lookup_other env up1 faults1 t1 now1 st req1 (filename t2)
      (fun h => hfn h.symm)
  · intro d1 d2 hup1 hup2 h1 h2
    obtain ⟨s1, e1, ht1, hs1, hu1, hw1⟩ :=
      textToSpeech_status_200 env up1 faults1 t1 now1 st req1 h1
    obtain ⟨s2, e2, ht2, hs2, hu2, hw2⟩ :=
      textToSpeech_status_200 env up2 faults2 t2 now2 _ req2 h2
    rw [hup1] at hu1
    rw [hup2] at hu2
    cases hu1
    cases hu2
    constructor
    · rw [textToSpeech_lookup_other env up2 faults2 t2 now2 _ req2 (filename t1) hfn,
        textToSpeech_ok env up1 faults1 t1 now1 st req1 s1 d1 ht1 hs1 hup1 hw1]
      exact lookup_write_self _ _ _
    · rw [textToSpeech_ok env up2 faults2 t2 now2 _ req2 s2 d2 ht2 hs2 hup2 hw2]
      exact lookup_write_self _ _ _

/-- Two requests with distinct sample tokens: the first file survives the second write. -/
theorem distinct_tokens_distinct_files_witness :
    sampleToken ≠ sampleToken2 ∧
    filename sampleToken ≠ filename sampleToken2 ∧
    (textToSpeech sampleEnv sampleUpstream2 noFaults sampleToken2 7
      (textToSpeech sampleEnv sampleUpstream noFaults sampleToken 0 FileStore.empty
        sampleRequest).store
      sampleRequest).store.lookup (filename sampleToken) =
        some { content := [0, 1], mtimeMs := 0 } ∧
    (textToSpeech sampleEnv sampleUpstream2 noFaults sampleToken2 7
      (textToSpeech sampleEnv sampleUpstream noFaults sampleToken 0 FileStore.empty
        sampleRequest).store
      sampleRequest).store.lookup (filename sampleToken2) =
        some { content := [2, 3], mtimeMs := 7 } :=
  have hne : sampleToken ≠ sampleToken2 := by decide
  have h := distinct_tokens_distinct_files sampleEnv sampleUpstream sampleUpstream2
    noFaults noFaults sampleToken sampleToken2 0 7 FileStore.empty sampleRequest
    sampleRequest hne
  have hboth := h.2.2.2.2 [0, 1] [2, 3] rfl rfl (by decide) (by decide)
  ⟨hne, h.2.1, hboth.1, hboth.2⟩

/-- C7: a sweep at time `now` during which no file operation fails returns normally and
leaves in the store exactly the entries whose age `now - mtimeMs` is at most 3600000 ms,
unchanged; every entry older than that is removed. -/
theorem sweep_partitions_by_age (faults : FsFaults) (now : Int) (st : FileStore)
    (hok : ∀ file ∈ readdirSync st, faults.stat file = none ∧ faults.unlink file = none) :
    (janitor faults now st).2 = none ∧
    (janitor faults now st).1.entries =
      st.entries.filter (fun e => decide (now - e.2.mtimeMs ≤ 3600000)) ∧
    (∀ file f, st.lookup file = some f → now - f.mtimeMs ≤ 3600000 →
      (janitor faults now st).1.lookup file = some f) ∧
    (∀ file f, st.lookup file = some f → now - f.mtimeMs > 3600000 →
      (janitor faults now st).1.lookup file = none) ∧
    (∀ file, st.lookup file = none → (janitor faults now st).1.lookup file = none) := by
  rw [janitor_noFaults faults now st hok]
  refine ⟨rfl, rfl, ?_, ?_, ?_⟩
  · intro file f hl hf
    show (st.keepFresh now).lookup file = _
    rw [lookup_keepFresh, hl]
    simp [Option.filter, hf]
  · intro file f hl hf
    show (st.keepFresh now).lookup file = _
    have : ¬ now - f.mtimeMs ≤ 3600000 := by omega
    rw [lookup_keepFresh, hl]
    simp [Option.filter, this]
  · intro file hl
    show (st.keepFresh now).lookup file = _
    rw [lookup_keepFresh, hl]
    rfl

/-- A sweep at time 10000000 of a store with one old and one recent file. -/
theorem sweep_partitions_by_age_witness :
    (∀ file ∈ readdirSync sampleStore,
      noFaults.stat file = none ∧ noFaults.unlink file = none) ∧
    (janitor noFaults 10000000 sampleStore).1.entries =
      [("b.mp3", { content := [2], mtimeMs := 9000000 })] ∧
    (janitor noFaults 10000000 sampleStore).1.lookup "a.mp3" = none :=
  have hok : ∀ file ∈ readdirSync sampleStore,
      noFaults.stat file = none ∧ noFaults.unlink file = none :=
    fun _ _ => ⟨rfl, rfl⟩
  have h := sweep_partitions_by_age noFaults 10000000 sampleStore hok
  ⟨hok, h.2.1.trans rfl, h.2.2.2.1 "a.mp3" { content := [1], mtimeMs := 0 } rfl
    (by decide)⟩

/-- C8 as stated fails: when `unlink` throws on a file last modified at time 0, the sweep
at time 7200000 ends with the error and the file is still in the store, as it is after a
further sweep at time 10800000. -/
theorem unlink_failure_breaks_retention :
    (sampleOldStore.lookup "a.mp3").map (fun f => f.mtimeMs) = some 0 ∧
    (janitor sampleUnlinkFault 7200000 sampleOldStore).2.map (fun e => e.message) =
      some "EPERM: operation not permitted, unlink 'audio_files/a.mp3'" ∧
    ((janitor sampleUnlinkFault 7200000 sampleOldStore).1.lookup "a.mp3").map
      (fun f => f.mtimeMs) = some 0 ∧
    ((janitor sampleUnlinkFault 10800000
      (janitor sampleUnlinkFault 7200000 sampleOldStore).1).1.lookup "a.mp3").map
      (fun f => f.mtimeMs) = some 0 :=
  ⟨rfl, rfl, rfl, rfl⟩

/-- C8, amended: with sweeps every 3600000 ms that delete what is older than 3600000 ms,
and no file operation failing during the sweep, a file
last modified at `t` is absent after a sweep at or after `t + 7200000`, and such a sweep
leaves no file last modified at `t` or before; and when the timer
was started at `start ≤ t`, one of its sweeps runs after `t + 3600000` and no later than
`t + 7200000`, and after that sweep no file last modified at `t` or before is in the
store. -/
theorem retention_bound (faults : FsFaults) (st : FileStore) (start t : Int)
    (hok : ∀ file ∈ readdirSync st, faults.stat file = none ∧ faults.unlink file = none) :
    (∀ now file f, t + 7200000 ≤ now → st.lookup file = some f → f.mtimeMs = t →
      (janitor faults now st).1.lookup file = none) ∧
    (∀ now, t + 7200000 ≤ now →
      ∀ file g, (janitor faults now st).1.lookup file = some g → t < g.mtimeMs) ∧
    (start ≤ t → ∃ k : Nat, 1 ≤ k ∧ t + 3600000 < sweepTime start k ∧
      sweepTime start k ≤ t + 7200000 ∧
      ∀ file g, (janitor faults (sweepTime start k) st).1.lookup file = some g →
        t < g.mtimeMs) := by
  have key : ∀ now, t + 3600000 < now →
      ∀ file g, (janitor faults now st).1.lookup file = some g → t < g.mtimeMs := by
    intro now hnow file g hg
    rw [janitor_noFaults faults now st hok] at hg
    have hm := mem_of_lookup _ _ _ hg
    have hfresh : now - g.mtimeMs ≤ 3600000 := by simpa using (List.mem_filter.mp hm).2
    omega
  refine ⟨?_, fun now hnow => key now (by omega), ?_⟩
  · intro now file f hnow hl hf
    have hold : now - f.mtimeMs > 3600000 := by omega
    have : ¬ now - f.mtimeMs ≤ 3600000 := by omega
    rw [janitor_noFaults faults now st hok]
    show (st.keepFresh now).lookup file = none
    rw [lookup_keepFresh, hl]
    simp [Option.filter, this]
  intro hst
  refine ⟨((t - start) / 3600000).toNat + 2, by omega, ?_, ?_, ?_⟩
  · unfold sweepTime
    have h1 := Int.emod_add_ediv (t - start) 3600000
    have h2 := Int.emod_lt_of_pos (t - start) (by norm_num : (0 : Int) < 3600000)
    have h3 : 0 ≤ (t - start) / 3600000 := Int.ediv_nonneg (by omega) (by norm_num)
    have h4 : ((((t - start) / 3600000).toNat + 2 : Nat) : Int) = (t - start) / 3600000 + 2 := by
      omega
    rw [h4]
    omega
  · unfold sweepTime
    have h1 := Int.emod_add_ediv (t - start) 3600000
    have h2 := Int.emod_nonneg (t - start) (by norm_num : (3600000 : Int) ≠ 0)
    have h3 : 0 ≤ (t - start) / 3600000 := Int.ediv_nonneg (by omega) (by norm_num)
    have h4 : ((((t - start) / 3600000).toNat + 2 : Nat) : Int) = (t - start) / 3600000 + 2 := by
      omega
    rw [h4]
    omega
  · refine key _ ?_
    unfold sweepTime
    have h1 := Int.emod_add_ediv (t - start) 3600000
    have h2 := Int.emod_lt_of_pos (t - start) (by norm_num : (0 : Int) < 3600000)
    have h3 : 0 ≤ (t - start) / 3600000 := Int.ediv_nonneg (by omega) (by norm_num)
    have h4 : ((((t - start) / 3600000).toNat + 2 : Nat) : Int) = (t - start) / 3600000 + 2 := by
      omega
    rw [h4]
    omega

/-- A sweep at time 7200000 leaves no file last modified at time 0. -/
theorem retention_bound_witness :
    (∀ file ∈ readdirSync sampleStore,
      noFaults.stat file = none ∧ noFaults.unlink file = none) ∧
    (∀ file g, (janitor noFaults 7200000 sampleStore).1.lookup file = some g →
      0 < g.mtimeMs) :=
  have hok : ∀ file ∈ readdirSync sampleStore,
      noFaults.stat file = none ∧ noFaults.unlink file = none :=
    fun _ _ => ⟨rfl, rfl⟩
  ⟨hok, (retention_bound noFaults sampleStore 0 0 hok).2.1 7200000 (by decide)⟩

/-- C9 as stated fails: when the caller supplies `voice_settings` with `stability` only,
the object sent upstream is that object as it is; `similarity_boost`, `style` and
`use_speaker_boost` are absent from it. -/
theorem partial_voice_settings_forwarded :
    (textToSpeech sampleEnv sampleUpstream noFaults sampleToken 0 FileStore.empty
      samplePartialSettingsRequest).calls.map (fun c => getProp c.data "voice_settings") =
      [.obj [("stability", .num (9 / 10))]] ∧
    (textToSpeech sampleEnv sampleUpstream noFaults sampleToken 0 FileStore.empty
      samplePartialSettingsRequest).calls.map
        (fun c => getProp (getProp c.data "voice_settings") "similarity_boost") =
      [.undefined] ∧
    (textToSpeech sampleEnv sampleUpstream noFaults sampleToken 0 FileStore.empty
      samplePartialSettingsRequest).calls.map
        (fun c => getProp (getProp c.data "voice_settings") "style") = [.undefined] ∧
    (textToSpeech sampleEnv sampleUpstream noFaults sampleToken 0 FileStore.empty
      samplePartialSettingsRequest).calls.map
        (fun c => getProp (getProp c.data "voice_settings") "use_speaker_boost") =
      [.undefined] := by
  have hs : nonBlank "Hello world" := ⟨'H', by decide, by decide⟩
  rw [textToSpeech_ok sampleEnv sampleUpstream noFaults sampleToken 0 FileStore.empty
    samplePartialSettingsRequest "Hello world" [0, 1] rfl hs rfl rfl]
  exact ⟨rfl, rfl, rfl, rfl⟩

/-- C9, amended: a request that passes validation makes one upstream call; its
`voice_settings` is the caller's `voice_settings` value as supplied whenever that value is
truthy (any object, whichever fields it has), and otherwise (absent or falsy) the default
object, in which `stability` is 0.5, `similarity_boost` is 0.75, `style` is 0 and
`use_speaker_boost` is true. -/
theorem voice_settings_defaulting (env : Env) (upstream : Upstream) (faults : FsFaults)
    (token : List Byte) (now : Int) (st : FileStore) (req : Request) (s : String)
    (ht : getProp (.obj req.body) "text" = .str s) (hs : nonBlank s) :
    (textToSpeech env upstream faults token now st req).calls = [sentCall env req] ∧
    (truthy (getProp (.obj req.body) "voice_settings") = true →
      getProp (sentCall env req).data "voice_settings" =
        getProp (.obj req.body) "voice_settings") ∧
    (truthy (getProp (.obj req.body) "voice_settings") = false →
      getProp (sentCall env req).data "voice_settings" = defaultVoiceSettings) ∧
    (req.body.lookup "voice_settings" = none →
      getProp (sentCall env req).data "voice_settings" = defaultVoiceSettings) ∧
    getProp defaultVoiceSettings "stability" = .num (1 / 2) ∧
    getProp defaultVoiceSettings "similarity_boost" = .num (3 / 4) ∧
    getProp defaultVoiceSettings "style" = .num 0 ∧
    getProp defaultVoiceSettings "use_speaker_boost" = .bool true := by
  have hm : getProp (sentCall env req).data "voice_settings" =
      jsOr (getProp (.obj req.body) "voice_settings") defaultVoiceSettings := rfl
  refine ⟨?_, ?_, ?_, ?_, rfl, rfl, rfl, rfl⟩
  · cases hup : upstream (sentCall env req) with
    | error e => rw [textToSpeech_error env upstream faults token now st req s e ht hs hup]
    | ok data =>
      cases hw : faults.write (filename token) with
      | none => rw [textToSpeech_ok env upstream faults token now st req s data ht hs hup hw]
      | some e =>
        rw [textToSpeech_writeError env upstream faults token now st req s data e ht hs hup hw]
  · intro h
    rw [hm, jsOr, if_pos h]
  · intro h
    rw [hm, jsOr, h]
    rfl
  · intro h
    have hu : getProp (.obj req.body) "voice_settings" = .undefined := by
      simp [getProp, h]
    rw [hm, hu]
    rfl

/-- The voice settings sent upstream without and with caller-supplied settings. -/
theorem voice_settings_defaulting_witness :
    nonBlank "Hello world" ∧
    getProp (sentCall sampleEnv sampleRequest).data "voice_settings" = defaultVoiceSettings ∧
    getProp (sentCall sampleEnv samplePartialSettingsRequest).data "voice_settings" =
      .obj [("stability", .num (9 / 10))] :=
  have hs : nonBlank "Hello world" := ⟨'H', by decide, by decide⟩
  ⟨hs,
    (voice_settings_defaulting sampleEnv sampleUpstream noFaults sampleToken 0 FileStore.empty
      sampleRequest "Hello world" rfl hs).2.2.2.1 rfl,
    rfl⟩

/-- C10 as stated fails: with two files older than 3600000 ms and a `stat` that throws on
the first, the sweep ends with that error escaping, and the second file, on which no
operation fails, is still in the store. -/
theorem stat_failure_aborts_sweep :
    (janitor sampleStatFault 10000000 sampleOldStore).2.map (fun e => e.message) =
      some "EACCES: permission denied, stat 'audio_files/a.mp3'" ∧
    (sampleOldStore.lookup "b.mp3").map (fun f => decide (10000000 - f.mtimeMs > 3600000)) =
      some true ∧
    sampleStatFault.stat "b.mp3" = none ∧ sampleStatFault.unlink "b.mp3" = none ∧
    ((janitor sampleStatFault 10000000 sampleOldStore).1.lookup "b.mp3").map
      (fun f => f.content) = some [2] :=
  ⟨rfl, rfl, rfl, rfl, rfl⟩

/-- C10, amended: a failure to stat or to delete an entry ends the sweep at that entry.
The entries listed before it have been handled (those older than 3600000 ms removed, the
others kept), the failing entry and every entry listed after it stay in the store whatever
their age, and the error escapes the sweep. -/
theorem failure_stops_sweep (faults : FsFaults) (now : Int) (st : FileStore)
    (pre post : List (String × AudioFile)) (file : String) (f : AudioFile) (e : JsError)
    (hs : st.entries = pre ++ (file, f) :: post)
    (hpre : ∀ x ∈ pre, faults.stat x.1 = none ∧ faults.unlink x.1 = none)
    (hfail : faults.stat file = some e ∨
      (faults.stat file = none ∧ now - f.mtimeMs > 3600000 ∧ faults.unlink file = some e)) :
    (janitor faults now st).2 = some e ∧
    (janitor faults now st).1.entries =
      pre.filter (fun x => decide (now - x.2.mtimeMs ≤ 3600000)) ++ (file, f) :: post := by
  have hsub : List.Sublist
      (pre.filter (fun x => decide (now - x.2.mtimeMs ≤ 3600000)) ++ (file, f) :: post)
      st.entries := by
    rw [hs]
    exact (List.filter_sublist pre).append (List.Sublist.refl _)
  let s' : FileStore :=
    { entries := pre.filter (fun x => decide (now - x.2.mtimeMs ≤ 3600000)) ++ (file, f) :: post,
      nodup := st.nodup.sublist (hsub.map Prod.fst) }
  have h := forEachFile_prefix faults now (file :: post.map Prod.fst) ((file, f) :: post)
    pre [] st s' (by simpa using hs) (by simp [s']) hpre
  have hnames : readdirSync st = pre.map Prod.fst ++ file :: post.map Prod.fst := by
    unfold readdirSync
    rw [hs, List.map_append, List.map_cons]
  have hnd := s'.nodup
  rw [List.map_append, List.nodup_append] at hnd
  have hl : s'.lookup file = some f :=
    lookup_append_cons _ post file f (fun hmem => hnd.2.2 hmem (by simp))
  have hstep : sweepFile faults now s' file = .error e := by
    rcases hfail with h1 | ⟨h1, h2, h3⟩
    · simp [sweepFile, statSync, h1]
    · simp [sweepFile, statSync, unlinkSync, h1, hl, h2, h3]
  have hj : janitor faults now st = (s', some e) := by
    unfold janitor
    rw [hnames, h]
    simp only [forEachFile, hstep]
  rw [hj]
  exact ⟨rfl, rfl⟩

/-- A sweep whose `stat` fails on the second entry: the first, old, entry has been removed. -/
theorem failure_stops_sweep_witness :
    sampleStore.entries = [("a.mp3", { content := [1], mtimeMs := 0 })] ++
      ("b.mp3", { content := [2], mtimeMs := 9000000 }) :: [] ∧
    (janitor { stat := fun file => if file = "b.mp3" then some sampleStatError else none,
               unlink := fun _ => none, write := fun _ => none } 10000000 sampleStore).1.entries =
      [("b.mp3", { content := [2], mtimeMs := 9000000 })] :=
  ⟨rfl,
    (failure_stops_sweep
      { stat := fun file => if file = "b.mp3" then some sampleStatError else none,
        unlink := fun _ => none, write := fun _ => none }
      10000000 sampleStore [("a.mp3", { content := [1], mtimeMs := 0 })] [] "b.mp3"
      { content := [2], mtimeMs := 9000000 } sampleStatError rfl
      (fun x hx => by
        have hx' : x = ("a.mp3", { content := [1], mtimeMs := 0 }) := by simpa using hx
        rw [hx']
        exact ⟨rfl, rfl⟩)
      (Or.inl rfl)).2.trans rfl⟩

end ElevenLabsProxy
